import Mathlib

/-!
Verification of the lexical-analysis core of the Jason repository.

The Rust sources under review are `src/lex/tokens.rs` (trivia lexers,
identifier lexer, token dispatcher) and `src/lexing/tokens/escapes.rs`
(escape-sequence lexers).  Supporting code that is not part of the reviewed
tree (the `SourceIter`/`SourceStream` cursor, the `Span` model, the lexing
framework combinators) is modelled from the specification; every such
definition carries a doc comment saying so.

Rust `Option`-returning lexers are embedded as functions producing a
`LexO` outcome together with the cursor state left behind: `matched`
corresponds to `Some`/`Ok(Some(..))`, `noMatch` to `None`/`Ok(None)`,
`malformed` to `Err(..)`, and `panicked` to a Rust `unwrap` failing.
-/

namespace Jason

/-- Modelled from the spec: an error carrying the offending location
(§7, "error-with-location"); the concrete `LexError` type is not under
the reviewed sources. -/
structure LexError where
  loc : Nat
deriving DecidableEq, Repr

/-- Modelled from the spec (§3, §4.2): a closed source range from
`startL` to `endL`.  The concrete `Span` type is not under the reviewed
sources; `tokens.rs` builds spans with `Span::single_char` and
`TryIntoSpan::try_into_span(start..=end)`. -/
structure Span where
  startL : Nat
  endL : Nat
deriving DecidableEq, Repr

/-- `Span::single_char(loc)` (also `Span::from(loc)` in `escapes.rs`):
the one-character span at `loc`. -/
def Span.single_char (loc : Nat) : Span := ⟨loc, loc⟩

/-- Modelled from the spec (§4.2): `range(start, end)` "fails, or is
disallowed, when `end < start`"; `TryIntoSpan::try_into_span` is not
under the reviewed sources. -/
def TryIntoSpan.try_into_span (s e : Nat) : Option Span :=
  if e < s then none else some ⟨s, e⟩

/-- Modelled from the spec (§3, §4.1): the source cursor
(`SourceIter`/`SourceStream`), a position-tracking iterator over the
remaining characters.  `off` is the `Location` of the next character. -/
structure SourceIter where
  off : Nat
  rest : List Char
deriving DecidableEq, Repr

/-- `SourceIter::peek`: the next character, without consuming. -/
def SourceIter.peek (it : SourceIter) : Option Char := it.rest.head?

/-- `SourceIter::peek2`: the character one position ahead, without consuming. -/
def SourceIter.peek2 (it : SourceIter) : Option Char := it.rest[1]?

/-- `SourceStream::peek_n(n)`: the character `n` positions ahead (0-based). -/
def SourceIter.peek_n (it : SourceIter) (n : Nat) : Option Char := it.rest[n]?

/-- `SourceIter::next` / `SourceStream::take`: consume and return the
current `(Location, char)` pair, or `none` at end of input. -/
def SourceIter.next (it : SourceIter) : Option (Nat × Char × SourceIter) :=
  match it.rest with
  | [] => none
  | c :: cs => some (it.off, c, ⟨it.off + 1, cs⟩)

/-- `SourceIter::fork`: an independent copy for speculative lookahead. -/
def SourceIter.fork (it : SourceIter) : SourceIter := it

/-- Three-way-plus-panic outcome of one lexing attempt (spec §3
`LexOutcome`), with `panicked` standing for a Rust `unwrap()` failing. -/
inductive LexO (α : Type) where
  | matched (a : α)
  | noMatch
  | malformed (e : LexError)
  | panicked
deriving DecidableEq, Repr

/-- A lexer: consumes from a cursor, returning the outcome and the
cursor state left behind (Rust threads the cursor as `&mut`). -/
abbrev Lexer (α : Type) := SourceIter → LexO α × SourceIter

/-- Map the matched value of an outcome (Rust `LexResult::map`). -/
def mapLex (g : α → β) : LexO α × SourceIter → LexO β × SourceIter
  | (.matched a, it) => (.matched (g a), it)
  | (.noMatch, it) => (.noMatch, it)
  | (.malformed e, it) => (.malformed e, it)
  | (.panicked, it) => (.panicked, it)

/-- Modelled from the spec (§4.3, §8): the peek-guarded framework `lex`
of the lexing module (the blanket `Lex` implementation over `LexT` is not
under the reviewed sources): when `peek` is false it returns `NoMatch`
and leaves the cursor untouched, otherwise it defers to the type's raw
`LexT::lex`. -/
def lexFw (p : SourceIter → Bool) (f : Lexer α) : Lexer α := fun it =>
  if p it then f it else (.noMatch, it)

/-- Modelled from the spec (§4.3, §7): `LexResult::or` — only a
`Nothing`/`NoMatch` first attempt falls through to the next alternative;
`Matched` and `Malformed` are kept. -/
def lexOr (r : LexO α × SourceIter) (f : SourceIter → LexO α × SourceIter) :
    LexO α × SourceIter :=
  match r with
  | (.noMatch, it) => f it
  | r => r

/-- Modelled from the spec: `LexResult::unwrap_as_result` — converts the
three-way result into `Result`, turning a leftover `Nothing` into an
error at the current location (its callers argue this case unreachable). -/
def unwrapAsResult (r : LexO α × SourceIter) : LexO α × SourceIter :=
  match r with
  | (.noMatch, it) => (.malformed ⟨it.off⟩, it)
  | r => r

/-- The Unicode minor categories the lexer distinguishes (from the
external `finl_unicode` dependency), with a catch-all for every other
category. -/
inductive MinorCategory where
  | Lu | Ll | Lt | Lm | Lo | Nl | Mn | Mc | Nd | Pc | Zs | other
deriving DecidableEq, Repr

/-- Models `finl_unicode`'s `get_minor_category` (an external
dependency, not repository code): exact on ASCII, on Latin-1, and on the
Unicode space-separator code points; all remaining code points fall into
the catch-all category, and no theorem below evaluates the function
outside the exact range. -/
def getMinorCategory (c : Char) : MinorCategory :=
  if decide ('A' ≤ c ∧ c ≤ 'Z') then .Lu
  else if decide ('a' ≤ c ∧ c ≤ 'z') then .Ll
  else if decide ('0' ≤ c ∧ c ≤ '9') then .Nd
  else if c == '_' then .Pc
  else if c == ' ' then .Zs
  else if c == '\u00a0' || c == '\u1680' || decide ('\u2000' ≤ c ∧ c ≤ '\u200a')
      || c == '\u202f' || c == '\u205f' || c == '\u3000' then .Zs
  else if c == 'µ' || decide ('ß' ≤ c ∧ c ≤ 'ö')
      || decide ('ø' ≤ c ∧ c ≤ 'ÿ') then .Ll
  else if decide ('À' ≤ c ∧ c ≤ 'Ö')
      || decide ('Ø' ≤ c ∧ c ≤ 'Þ') then .Lu
  else if c == 'ª' || c == 'º' then .Lo
  else .other

/-- `WhiteSpace::is_whitespace` (tokens.rs): tab, vertical tab, form
feed, space, no-break space, or the Zs category. -/
def WhiteSpace.is_whitespace (ch : Char) : Bool :=
  ch == '\u0009' || ch == '\u000b' || ch == '\u000c' || ch == ' '
    || ch == '\u00a0' || decide (getMinorCategory ch = .Zs)

/-- `WhiteSpace::peek` (tokens.rs):
`input.peek().map(Self::is_whitespace).unwrap_or_default()`. -/
def WhiteSpace.peek (it : SourceIter) : Bool :=
  match it.peek with
  | some ch => WhiteSpace.is_whitespace ch
  | none => false

/-- The `while let Some(ch) = input.peek()` loop of `WhiteSpace::lex`:
consume the maximal whitespace run, tracking the last consumed location. -/
def WhiteSpace.wsLoop : Nat → List Char → Nat → Nat × SourceIter
  | off, [], e => (e, ⟨off, []⟩)
  | off, c :: cs, e =>
    if WhiteSpace.is_whitespace c then WhiteSpace.wsLoop (off + 1) cs off
    else (e, ⟨off, c :: cs⟩)

/-- `WhiteSpace::lex` (tokens.rs): consume one whitespace character,
then the maximal run; span from the start to the last consumed location. -/
def WhiteSpace.lex (it : SourceIter) : LexO Span × SourceIter :=
  match it.peek with
  | none => (.noMatch, it)
  | some ch =>
    if WhiteSpace.is_whitespace ch then
      match it.next with
      | none => (.noMatch, it)
      | some (start, _, it1) =>
        match WhiteSpace.wsLoop it1.off it1.rest start with
        | (e, it2) =>
          match TryIntoSpan.try_into_span start e with
          | some sp => (.matched sp, it2)
          | none => (.noMatch, it2)
    else (.noMatch, it)

/-- The ECMAScript line-terminator set LF, CR, LS, PS — the character
class matched inline by `LineTerminator` in tokens.rs and provided to
`escapes.rs` by `line_terminator::is_line_terminator` (that helper is
not under the reviewed sources; modelled from the spec §4.4 as the same
four-character set). -/
def is_line_terminator (c : Char) : Bool :=
  c == '\u000a' || c == '\u000d' || c == '\u2028' || c == '\u2029'

/-- `LineTerminator::peek` (tokens.rs). -/
def LineTerminator.peek (it : SourceIter) : Bool :=
  match it.peek with
  | some c => is_line_terminator c
  | none => false

/-- `LineTerminator::lex` (tokens.rs): exactly one of LF, CR, LS, PS as
a single-character span. -/
def LineTerminator.lex (it : SourceIter) : LexO Span × SourceIter :=
  match it.peek with
  | none => (.noMatch, it)
  | some c =>
    if is_line_terminator c then
      match it.next with
      | none => (.noMatch, it)
      | some (loc, _, it1) => (.matched (Span.single_char loc), it1)
    else (.noMatch, it)

/-- `LineTerminatorSeq::peek` (tokens.rs): CR followed by LF, or any
single line terminator. -/
def LineTerminatorSeq.peek (it : SourceIter) : Bool :=
  match it.peek with
  | some c1 => (c1 == '\u000d' && it.peek2 == some '\u000a') || is_line_terminator c1
  | none => false

/-- `LineTerminatorSeq::lex` (tokens.rs): CR immediately followed by LF
is one two-character span; otherwise a single line terminator is a
one-character span. -/
def LineTerminatorSeq.lex (it : SourceIter) : LexO Span × SourceIter :=
  match it.peek with
  | none => (.noMatch, it)
  | some c1 =>
    if c1 == '\u000d' && it.peek2 == some '\u000a' then
      match it.next with
      | none => (.noMatch, it)
      | some (s, _, it1) =>
        match it1.next with
        | none => (.noMatch, it1)
        | some (e, _, it2) =>
          match TryIntoSpan.try_into_span s e with
          | some sp => (.matched sp, it2)
          | none => (.noMatch, it2)
    else if is_line_terminator c1 then
      match it.next with
      | none => (.noMatch, it)
      | some (loc, _, it1) => (.matched (Span.single_char loc), it1)
    else (.noMatch, it)

/-- `SingleLineComment::peek` (tokens.rs): next two characters are `//`. -/
def SingleLineComment.peek (it : SourceIter) : Bool :=
  match it.peek, it.peek2 with
  | some c1, some c2 => c1 == '/' && c2 == '/'
  | _, _ => false

/-- The `while !LineTerminator::peek(input)` loop of
`SingleLineComment::lex`: it stops (keeping the current end) at a line
terminator, but at end of input the loop guard is still true and the
body's `input.next().unwrap()` panics — modelled by the `none` result. -/
def SingleLineComment.slcLoop : Nat → List Char → Nat → Option Nat × SourceIter
  | off, [], _e => (none, ⟨off, []⟩)
  | off, c :: cs, e =>
    if is_line_terminator c then (some e, ⟨off, c :: cs⟩)
    else SingleLineComment.slcLoop (off + 1) cs off

/-- `SingleLineComment::lex` (tokens.rs): consume `//`, then characters
up to the next line terminator; span from the first slash to the last
consumed character. -/
def SingleLineComment.lex (it : SourceIter) : LexO Span × SourceIter :=
  if SingleLineComment.peek it then
    match it.next with
    | none => (.noMatch, it)
    | some (start, _, it1) =>
      match it1.next with
      | none => (.noMatch, it1)
      | some (_, _, it2) =>
        match SingleLineComment.slcLoop it2.off it2.rest start with
        | (none, itp) => (.panicked, itp)
        | (some e, it3) =>
          match TryIntoSpan.try_into_span start e with
          | some sp => (.matched sp, it3)
          | none => (.noMatch, it3)
  else (.noMatch, it)

/-- `MultiLineComment::peek` (tokens.rs): next two characters are
the leading signature `/*`. -/
def MultiLineComment.peek (it : SourceIter) : Bool :=
  match it.peek, it.peek2 with
  | some c1, some c2 => c1 == '/' && c2 == '*'
  | _, _ => false

/-- `MultiLineComment::peek_end` (tokens.rs): next two characters are `*/`. -/
def MultiLineComment.peek_end (it : SourceIter) : Bool :=
  match it.peek, it.peek2 with
  | some c1, some c2 => c1 == '*' && c2 == '/'
  | _, _ => false

/-- The `while !Self::peek_end(input)` loop of `MultiLineComment::lex`:
stops at the closing `*/`; at end of input the guard is still true and
the body's `input.next().unwrap()` panics — modelled by `none`. -/
def MultiLineComment.mlcLoop : Nat → List Char → Option SourceIter
  | _off, [] => none
  | off, c :: cs =>
    if MultiLineComment.peek_end ⟨off, c :: cs⟩ then some ⟨off, c :: cs⟩
    else MultiLineComment.mlcLoop (off + 1) cs

/-- `MultiLineComment::lex` (tokens.rs): consume `/*`, scan for `*/`,
then consume the closing `*` and `/`; span from the first slash to the
closing slash. -/
def MultiLineComment.lex (it : SourceIter) : LexO Span × SourceIter :=
  if MultiLineComment.peek it then
    match it.next with
    | none => (.noMatch, it)
    | some (start, _, it1) =>
      match it1.next with
      | none => (.noMatch, it1)
      | some (_, _, it2) =>
        match MultiLineComment.mlcLoop it2.off it2.rest with
        | none => (.panicked, ⟨it2.off + it2.rest.length, []⟩)
        | some itm =>
          match itm.next with
          | none => (.panicked, itm)
          | some (_, _, ita) =>
            match ita.next with
            | none => (.panicked, ita)
            | some (e, _, itb) =>
              match TryIntoSpan.try_into_span start e with
              | some sp => (.matched sp, itb)
              | none => (.noMatch, itb)
  else (.noMatch, it)

/-- `is_single_escape_char` (escapes.rs): one of `' " \ b f n r t v`. -/
def is_single_escape_char (c : Char) : Bool :=
  c == '\'' || c == '"' || c == '\\' || c == 'b' || c == 'f' || c == 'n'
    || c == 'r' || c == 't' || c == 'v'

/-- `is_escape_char` (escapes.rs): a single escape char, a decimal
digit, `x`, or `u`. -/
def is_escape_char (c : Char) : Bool :=
  is_single_escape_char c || decide ('0' ≤ c ∧ c ≤ '9') || c == 'x' || c == 'u'

/-- `SingleEscapeChar` (escapes.rs): a verbatim single escape character
with its raw value. -/
structure SingleEscapeChar where
  span : Span
  raw : Char
deriving DecidableEq, Repr

/-- `SingleEscapeChar::peek` (escapes.rs):
`input.upcoming(is_single_escape_char)`. -/
def SingleEscapeChar.peek (it : SourceIter) : Bool :=
  match it.peek with
  | some c => is_single_escape_char c
  | none => false

/-- `SingleEscapeChar::lex` (escapes.rs, the raw `LexT` body): take the
next character verbatim; the `unwrap` panics only at end of input. -/
def SingleEscapeChar.lexT : Lexer SingleEscapeChar := fun it =>
  match it.next with
  | none => (.panicked, it)
  | some (loc, c, it1) => (.matched ⟨Span.single_char loc, c⟩, it1)

/-- The user-facing `SingleEscapeChar` lexer: the raw body behind the
peek-guarded framework wrapper. -/
def SingleEscapeChar.lex : Lexer SingleEscapeChar :=
  lexFw SingleEscapeChar.peek SingleEscapeChar.lexT

/-- `NonEscapeChar` (escapes.rs): a verbatim character that is neither
a line terminator nor an escape character. -/
structure NonEscapeChar where
  span : Span
  raw : Char
deriving DecidableEq, Repr

/-- `NonEscapeChar::peek` (escapes.rs). -/
def NonEscapeChar.peek (it : SourceIter) : Bool :=
  match it.peek with
  | some c => !(is_line_terminator c || is_escape_char c)
  | none => false

/-- `NonEscapeChar::lex` (escapes.rs, raw `LexT` body). -/
def NonEscapeChar.lexT : Lexer NonEscapeChar := fun it =>
  match it.next with
  | none => (.panicked, it)
  | some (loc, c, it1) => (.matched ⟨Span.single_char loc, c⟩, it1)

/-- The user-facing `NonEscapeChar` lexer. -/
def NonEscapeChar.lex : Lexer NonEscapeChar :=
  lexFw NonEscapeChar.peek NonEscapeChar.lexT

/-- `CharacterEscapeSequence` (escapes.rs): single escape char or
non-escape char. -/
inductive CharacterEscapeSequence where
  | single (s : SingleEscapeChar)
  | nonEscape (n : NonEscapeChar)
deriving DecidableEq, Repr

/-- `CharacterEscapeSequence::peek` (escapes.rs). -/
def CharacterEscapeSequence.peek (it : SourceIter) : Bool :=
  SingleEscapeChar.peek it || NonEscapeChar.peek it

/-- `CharacterEscapeSequence::lex` (escapes.rs, raw `LexT` body):
`Lex::lex(input).map(Single).or(|| Lex::lex(input).map(NonEscape)).unwrap_as_result()`. -/
def CharacterEscapeSequence.lexT : Lexer CharacterEscapeSequence := fun it =>
  unwrapAsResult
    (lexOr (mapLex CharacterEscapeSequence.single (SingleEscapeChar.lex it))
      (fun it1 => mapLex CharacterEscapeSequence.nonEscape (NonEscapeChar.lex it1)))

/-- The user-facing `CharacterEscapeSequence` lexer. -/
def CharacterEscapeSequence.lex : Lexer CharacterEscapeSequence :=
  lexFw CharacterEscapeSequence.peek CharacterEscapeSequence.lexT

/-- `Null` (escapes.rs): the literal digit `0`, not followed by a digit. -/
structure Null where
  span : Span
deriving DecidableEq, Repr

/-- `Null::peek` (escapes.rs):
`input.upcoming("0") && !matches!(input.peek_n(1), Some('0'..='9'))`. -/
def Null.peek (it : SourceIter) : Bool :=
  (it.peek == some '0')
    && !(match it.peek_n 1 with
         | some d => decide ('0' ≤ d ∧ d ≤ '9')
         | none => false)

/-- `Null::lex` (escapes.rs, raw `LexT` body): take the `0`. -/
def Null.lexT : Lexer Null := fun it =>
  match it.next with
  | none => (.panicked, it)
  | some (loc, _, it1) => (.matched ⟨Span.single_char loc⟩, it1)

/-- The user-facing `Null` lexer. -/
def Null.lex : Lexer Null := lexFw Null.peek Null.lexT

/-- Modelled from the spec (§4.6): a hexadecimal-digit character
(`HexDigit` lives in the number module, which is not under the reviewed
sources). -/
def is_hex_digit (c : Char) : Bool :=
  decide ('0' ≤ c ∧ c ≤ '9') || decide ('a' ≤ c ∧ c ≤ 'f')
    || decide ('A' ≤ c ∧ c ≤ 'F')

/-- Modelled from the spec (§4.6): a lexed hexadecimal digit. -/
structure HexDigit where
  span : Span
  raw : Char
deriving DecidableEq, Repr

/-- Modelled from the spec: `HexDigit::peek`. -/
def HexDigit.peek (it : SourceIter) : Bool :=
  match it.peek with
  | some c => is_hex_digit c
  | none => false

/-- Modelled from the spec: the raw `HexDigit` lexer body. -/
def HexDigit.lexT : Lexer HexDigit := fun it =>
  match it.next with
  | none => (.panicked, it)
  | some (loc, c, it1) => (.matched ⟨Span.single_char loc, c⟩, it1)

/-- The user-facing `HexDigit` lexer. -/
def HexDigit.lex : Lexer HexDigit := lexFw HexDigit.peek HexDigit.lexT

/-- Modelled from the spec (§4.3): `Verbatim<'ch'>::peek` for a
one-character literal (the `v!` macro's generated impl is not under the
reviewed sources): true iff the next character equals the literal. -/
def Verbatim.peek (ch : Char) (it : SourceIter) : Bool :=
  it.peek == some ch

/-- Modelled from the spec (§4.3): the raw `Verbatim<'ch'>` lexer for a
one-character literal: consume the character, erring if it differs. -/
def Verbatim.lexT (ch : Char) : Lexer Span := fun it =>
  match it.next with
  | none => (.malformed ⟨it.off⟩, it)
  | some (loc, c, it1) =>
    if c == ch then (.matched (Span.single_char loc), it1)
    else (.malformed ⟨loc⟩, it1)

/-- Modelled from the spec (§4.3): `Exactly<N, T>` lexes `T` exactly `N`
times; fewer than `N` matches before a `NoMatch` is a `Malformed`. -/
def exactlyLex : Nat → Lexer α → Lexer (List α)
  | 0, _f => fun it => (.matched [], it)
  | n + 1, f => fun it =>
    match f it with
    | (.matched a, it1) =>
      (match exactlyLex n f it1 with
       | (.matched as, it2) => (.matched (a :: as), it2)
       | (.noMatch, it2) => (.malformed ⟨it2.off⟩, it2)
       | (.malformed e, it2) => (.malformed e, it2)
       | (.panicked, it2) => (.panicked, it2))
    | (.noMatch, it1) => (.malformed ⟨it1.off⟩, it1)
    | (.malformed e, it1) => (.malformed e, it1)
    | (.panicked, it1) => (.panicked, it1)

/-- `HexEscapeSequence` (escapes.rs): literal `x` and exactly two hex
digits. -/
structure HexEscapeSequence where
  x : Span
  digits : List HexDigit
deriving DecidableEq, Repr

/-- `HexEscapeSequence::peek` (escapes.rs): `<v!('x') as LexT>::peek`. -/
def HexEscapeSequence.peek (it : SourceIter) : Bool :=
  Verbatim.peek 'x' it

/-- `HexEscapeSequence::lex` (escapes.rs, raw `LexT` body):
`Ok(Self(LexT::lex(input)?, LexT::lex(input)?))`, the `?` propagating
any error. -/
def HexEscapeSequence.lexT : Lexer HexEscapeSequence := fun it =>
  match Verbatim.lexT 'x' it with
  | (.matched sp, it1) =>
    (match exactlyLex 2 HexDigit.lex it1 with
     | (.matched ds, it2) => (.matched ⟨sp, ds⟩, it2)
     | (.noMatch, it2) => (.noMatch, it2)
     | (.malformed e, it2) => (.malformed e, it2)
     | (.panicked, it2) => (.panicked, it2))
  | (.noMatch, it1) => (.noMatch, it1)
  | (.malformed e, it1) => (.malformed e, it1)
  | (.panicked, it1) => (.panicked, it1)

/-- The user-facing `HexEscapeSequence` lexer. -/
def HexEscapeSequence.lex : Lexer HexEscapeSequence :=
  lexFw HexEscapeSequence.peek HexEscapeSequence.lexT

/-- `UnicodeEscapeSequence` (escapes.rs): literal `u` and exactly four
hex digits. -/
structure UnicodeEscapeSequence where
  u : Span
  digits : List HexDigit
deriving DecidableEq, Repr

/-- `UnicodeEscapeSequence::peek` (escapes.rs): `<v!('u') as
LexT>::peek`, i.e. true iff the next character is `u`.  The sibling
`lex::escape::UnicodeEscapeSequence::peek` consulted by
`LIdentifier::is_identifier_start` is not under the reviewed sources and
is modelled by this same predicate, after the parallel implementation
here and the spec's `u HexDigit 4` grammar (§4.6), which starts at the
`u`, not at a backslash. -/
def UnicodeEscapeSequence.peek (it : SourceIter) : Bool :=
  Verbatim.peek 'u' it

/-- `UnicodeEscapeSequence::lex` (escapes.rs, raw `LexT` body). -/
def UnicodeEscapeSequence.lexT : Lexer UnicodeEscapeSequence := fun it =>
  match Verbatim.lexT 'u' it with
  | (.matched sp, it1) =>
    (match exactlyLex 4 HexDigit.lex it1 with
     | (.matched ds, it2) => (.matched ⟨sp, ds⟩, it2)
     | (.noMatch, it2) => (.noMatch, it2)
     | (.malformed e, it2) => (.malformed e, it2)
     | (.panicked, it2) => (.panicked, it2))
  | (.noMatch, it1) => (.noMatch, it1)
  | (.malformed e, it1) => (.malformed e, it1)
  | (.panicked, it1) => (.panicked, it1)

/-- The user-facing `UnicodeEscapeSequence` lexer. -/
def UnicodeEscapeSequence.lex : Lexer UnicodeEscapeSequence :=
  lexFw UnicodeEscapeSequence.peek UnicodeEscapeSequence.lexT

/-- The shape of the `EscapeSequence` sum type (escapes.rs), generic in
the four variant payloads so that the ordered-alternation chain of
`EscapeSequence::lex` can be stated for arbitrary sub-lexers. -/
inductive EscOf (α β γ δ : Type) where
  | characterEscapeSequence (a : α)
  | null (b : β)
  | hexEscapeSequence (c : γ)
  | unicodeEscapeSequence (d : δ)
deriving DecidableEq, Repr

/-- The body of `EscapeSequence::lex` (escapes.rs), abstracted over its
four sub-lexers: `input.lex().map(CharacterEscapeSequence).or(||
input.lex().map(Null)).or(|| input.lex().map(HexEscapeSequence)).or(||
input.lex().map(UnicodeEscapeSequence)).unwrap_as_result()`. -/
def EscapeSequence.lexWith (f1 : Lexer α) (f2 : Lexer β) (f3 : Lexer γ)
    (f4 : Lexer δ) : Lexer (EscOf α β γ δ) := fun it =>
  unwrapAsResult
    (lexOr
      (lexOr
        (lexOr (mapLex EscOf.characterEscapeSequence (f1 it))
          (fun it1 => mapLex EscOf.null (f2 it1)))
        (fun it2 => mapLex EscOf.hexEscapeSequence (f3 it2)))
      (fun it3 => mapLex EscOf.unicodeEscapeSequence (f4 it3)))

/-- The concrete `EscapeSequence` sum type (escapes.rs). -/
abbrev EscapeSequence :=
  EscOf CharacterEscapeSequence Null HexEscapeSequence UnicodeEscapeSequence

/-- `EscapeSequence::peek` (escapes.rs): the disjunction of the four
variants' peeks. -/
def EscapeSequence.peek (it : SourceIter) : Bool :=
  CharacterEscapeSequence.peek it || Null.peek it
    || HexEscapeSequence.peek it || UnicodeEscapeSequence.peek it

/-- `EscapeSequence::lex` (escapes.rs, raw `LexT` body): the ordered
alternation over the four concrete variant lexers. -/
def EscapeSequence.lexT : Lexer EscapeSequence :=
  EscapeSequence.lexWith CharacterEscapeSequence.lex Null.lex
    HexEscapeSequence.lex UnicodeEscapeSequence.lex

/-- The user-facing `EscapeSequence` lexer. -/
def EscapeSequence.lex : Lexer EscapeSequence :=
  lexFw EscapeSequence.peek EscapeSequence.lexT

/-- `LIdentifier::is_unicode_letter` (tokens.rs): Lu, Ll, Lt, Lm, Lo, Nl. -/
def LIdentifier.is_unicode_letter (c : Char) : Bool :=
  match getMinorCategory c with
  | .Lu | .Ll | .Lt | .Lm | .Lo | .Nl => true
  | _ => false

/-- `LIdentifier::is_unicode_combining_mark` (tokens.rs): Mn, Mc. -/
def LIdentifier.is_unicode_combining_mark (c : Char) : Bool :=
  match getMinorCategory c with
  | .Mn | .Mc => true
  | _ => false

/-- `LIdentifier::is_unicode_digit` (tokens.rs): Nd. -/
def LIdentifier.is_unicode_digit (c : Char) : Bool :=
  match getMinorCategory c with
  | .Nd => true
  | _ => false

/-- `LIdentifier::is_unicode_connector_punctuation` (tokens.rs): Pc. -/
def LIdentifier.is_unicode_connector_punctuation (c : Char) : Bool :=
  match getMinorCategory c with
  | .Pc => true
  | _ => false

/-- `LIdentifier::is_identifier_start` (tokens.rs): a Unicode letter,
`$` or `_`, or a backslash case that forks the cursor, advances the fork
past the backslash, discards it, and then tests
`UnicodeEscapeSequence::peek` on the original, unadvanced cursor. -/
def LIdentifier.is_identifier_start (it : SourceIter) : Bool :=
  match it.peek with
  | none => false
  | some ch =>
    if LIdentifier.is_unicode_letter ch then true
    else if ch == '$' || ch == '_' then true
    else if ch == '\\' then
      match it.fork.next with
      | none => false
      | some _ => UnicodeEscapeSequence.peek it
    else false

/-- `LIdentifier::is_identifier_part` (tokens.rs): an identifier start,
a combining mark, a digit, connector punctuation, or ZWNJ/ZWJ. -/
def LIdentifier.is_identifier_part (it : SourceIter) : Bool :=
  if LIdentifier.is_identifier_start it then true
  else
    match it.peek with
    | none => false
    | some ch =>
      LIdentifier.is_unicode_combining_mark ch
        || LIdentifier.is_unicode_digit ch
        || LIdentifier.is_unicode_connector_punctuation ch
        || ch == '\u200c' || ch == '\u200d'

/-- `LIdentifier::peek_middle` (tokens.rs). -/
def LIdentifier.peek_middle (it : SourceIter) : Bool :=
  LIdentifier.is_identifier_part it

/-- `LIdentifier::peek` (tokens.rs). -/
def LIdentifier.peek (it : SourceIter) : Bool :=
  LIdentifier.is_identifier_start it

/-- The `while Self::peek_middle(input)` loop of `LIdentifier::lex`:
consume continuation characters, tracking the last consumed location. -/
def LIdentifier.idLoop : Nat → List Char → Nat → Nat × SourceIter
  | off, [], e => (e, ⟨off, []⟩)
  | off, c :: cs, e =>
    if LIdentifier.peek_middle ⟨off, c :: cs⟩ then
      LIdentifier.idLoop (off + 1) cs off
    else (e, ⟨off, c :: cs⟩)

/-- `LIdentifier::lex` (tokens.rs): consume the start character, set
`end = start + 1`, then consume while the continuation test holds,
updating `end` to each consumed location. -/
def LIdentifier.lex (it : SourceIter) : LexO Span × SourceIter :=
  if LIdentifier.peek it then
    match it.next with
    | none => (.panicked, it)
    | some (start, _, it1) =>
      match LIdentifier.idLoop it1.off it1.rest (start + 1) with
      | (e, it2) =>
        match TryIntoSpan.try_into_span start e with
        | some sp => (.matched sp, it2)
        | none => (.noMatch, it2)
  else (.noMatch, it)

/-- The shape of the `Token` sum type (tokens.rs), generic in the four
variant payloads so that the ordered-alternation chain of `Token::lex`
can be stated for arbitrary sub-lexers (the `LString` and `Number`
sub-lexers are not under the reviewed sources). -/
inductive TokenOf (α β γ δ : Type) where
  | identifier (a : α)
  | punctuator (b : β)
  | string (c : γ)
  | number (d : δ)
deriving DecidableEq, Repr

/-- The body of `Token::lex` (tokens.rs), abstracted over its four
sub-lexers: each attempt's result goes through `into_lex_result()?`, so
an error returns immediately, a match returns the wrapped variant, and
only `Ok(None)` falls through to the next attempt. -/
def Token.lexWith (f1 : Lexer α) (f2 : Lexer β) (f3 : Lexer γ)
    (f4 : Lexer δ) : Lexer (TokenOf α β γ δ) := fun it =>
  match f1 it with
  | (.matched a, it1) => (.matched (.identifier a), it1)
  | (.malformed e, it1) => (.malformed e, it1)
  | (.panicked, it1) => (.panicked, it1)
  | (.noMatch, it1) =>
    match f2 it1 with
    | (.matched b, it2) => (.matched (.punctuator b), it2)
    | (.malformed e, it2) => (.malformed e, it2)
    | (.panicked, it2) => (.panicked, it2)
    | (.noMatch, it2) =>
      match f3 it2 with
      | (.matched c, it3) => (.matched (.string c), it3)
      | (.malformed e, it3) => (.malformed e, it3)
      | (.panicked, it3) => (.panicked, it3)
      | (.noMatch, it3) =>
        match f4 it3 with
        | (.matched d, it4) => (.matched (.number d), it4)
        | (.malformed e, it4) => (.malformed e, it4)
        | (.panicked, it4) => (.panicked, it4)
        | (.noMatch, it4) => (.noMatch, it4)

/-- `Token::peek` (tokens.rs): its body is `unimplemented!()`, which
panics unconditionally; the panic is the `panicked` outcome, so no
boolean is ever produced. -/
def Token.peek (_ : SourceIter) : LexO Bool :=
  .panicked

/-- Modelled from the spec (§4.2): `SpanIter::combine` over an ordered,
non-empty sequence of spans (passed as head and tail), yielding the span
from the first span's start to the last span's end; the concrete
implementation is not under the reviewed sources (only its call sites in
the generated `Spanned` impls are). -/
def SpanIter.combine (first : Span) (rest : List Span) : Span :=
  ⟨first.startL, (rest.getLastD first).endL⟩

/-- A cursor positioned at the start of the given source text. -/
def iterOf (s : String) : SourceIter := ⟨0, s.toList⟩

/-- Claim C1 (code evaluated at the failing input): on the unterminated
multi-line comment input the scan loop reaches end of input with
`peek_end` false, and the loop body's `input.next().unwrap()` panics —
the lexer does not return the `Malformed` (unterminated comment) outcome
the claim requires, though it also does not loop forever and does not
return a truncated `Matched`. -/
theorem c1_multiline_comment_unterminated_eval :
    MultiLineComment.lex (iterOf "/* unterminated") = (.panicked, ⟨15, []⟩) := by
  decide

/-- Claim C2 (code evaluated at the failing input): on a `//` comment
that reaches end of input before any line terminator, the consume loop's
guard `!LineTerminator::peek` stays true at end of input and the body's
`input.next().unwrap()` panics — the lexer does not return the
`Matched` outcome the claim requires. -/
theorem c2_single_line_comment_eof_eval :
    SingleLineComment.lex (iterOf "//") = (.panicked, ⟨2, []⟩) := by
  decide

/-- Claim C3 (code evaluated at the failing input): on a backslash
beginning a fully valid Unicode escape (`A`), the identifier-start
test returns `false`, because after advancing a discarded fork it tests
`UnicodeEscapeSequence::peek` against the original cursor, which still
sees the backslash rather than the `u`. -/
theorem c3_identifier_start_backslash_eval :
    LIdentifier.is_identifier_start (iterOf "\\u0041") = false := by
  decide

/-- Claim C4 (code evaluated at both claimed inputs): an identifier
lexed from `"$_a1"` does span all four characters (locations 0 through
3), but an identifier lexed from the single-character input `"_"` gets
the span `0..=1` — two positions, because `end` is initialised to
`start + 1` — instead of the single-character span the claim requires. -/
theorem c4_identifier_span_eval :
    LIdentifier.lex (iterOf "$_a1") = (.matched ⟨0, 3⟩, ⟨4, []⟩)
      ∧ LIdentifier.lex (iterOf "_") = (.matched ⟨0, 1⟩, ⟨1, []⟩) := by
  constructor
  · decide
  · decide

/-- Claim C10: `Token::peek` is unconditionally `unimplemented!()`: for
every cursor it panics and never produces a boolean. -/
theorem c10_token_peek_panics (it : SourceIter) :
    Token.peek it = LexO.panicked := rfl

/-- Claim C7: `LineTerminatorSeq::lex` on CR immediately followed by LF
returns one `Matched` token spanning both characters and consumes both;
on CR not followed by LF (including CR at end of input), and likewise on
an input starting with LF, LS or PS, it returns one `Matched` token with
a single-character span and consumes exactly one character. -/
theorem c7_line_terminator_seq_crlf (off : Nat) (cs : List Char) (c c2 : Char)
    (hc : c ≠ '\u000a')
    (h2 : c2 = '\u000a' ∨ c2 = '\u2028' ∨ c2 = '\u2029') :
    LineTerminatorSeq.lex ⟨off, '\u000d' :: '\u000a' :: cs⟩
        = (.matched ⟨off, off + 1⟩, ⟨off + 2, cs⟩)
      ∧ LineTerminatorSeq.lex ⟨off, '\u000d' :: c :: cs⟩
        = (.matched (Span.single_char off), ⟨off + 1, c :: cs⟩)
      ∧ LineTerminatorSeq.lex ⟨off, ['\u000d']⟩
        = (.matched (Span.single_char off), ⟨off + 1, []⟩)
      ∧ LineTerminatorSeq.lex ⟨off, c2 :: cs⟩
        = (.matched (Span.single_char off), ⟨off + 1, cs⟩) := by
  refine ⟨?_, ?_, ?_, ?_⟩
  · simp [LineTerminatorSeq.lex, SourceIter.peek, SourceIter.peek2,
      SourceIter.next, TryIntoSpan.try_into_span, Nat.not_succ_lt_self]
  · simp [LineTerminatorSeq.lex, SourceIter.peek, SourceIter.peek2,
      SourceIter.next, is_line_terminator, hc]
  · simp [LineTerminatorSeq.lex, SourceIter.peek, SourceIter.peek2,
      SourceIter.next, is_line_terminator]
  · rcases h2 with h2 | h2 | h2 <;> subst h2 <;>
      simp [LineTerminatorSeq.lex, SourceIter.peek, SourceIter.peek2,
        SourceIter.next, is_line_terminator]

/-- Witness for claim C7 at off 0, continuation `"x"`, with LF as the
single-character fallback terminator. -/
theorem c7_line_terminator_seq_crlf_witness :
    LineTerminatorSeq.lex ⟨0, ['\u000d', '\u000a']⟩
        = (.matched ⟨0, 1⟩, ⟨2, []⟩)
      ∧ LineTerminatorSeq.lex ⟨0, ['\u000d', 'x']⟩
        = (.matched (Span.single_char 0), ⟨1, ['x']⟩)
      ∧ LineTerminatorSeq.lex ⟨0, ['\u000d']⟩
        = (.matched (Span.single_char 0), ⟨1, []⟩)
      ∧ LineTerminatorSeq.lex ⟨0, ['\u000a']⟩
        = (.matched (Span.single_char 0), ⟨1, []⟩) := by
  have h1 := c7_line_terminator_seq_crlf 0 [] 'x' '\u000a' (by decide)
    (Or.inl rfl)
  exact ⟨h1.1, h1.2.1, h1.2.2.1, h1.2.2.2⟩

/-- Claim C8: `Null::lex` matches the digit `0` only when not followed
by another digit: with a digit lookahead it is `NoMatch` with the cursor
unchanged; with a non-digit or end-of-input lookahead it is `Matched`,
consuming exactly the `0`. -/
theorem c8_null_negative_lookahead (off : Nat) (c : Char) (cs : List Char) :
    (('0' ≤ c ∧ c ≤ '9') →
        Null.lex ⟨off, '0' :: c :: cs⟩ = (.noMatch, ⟨off, '0' :: c :: cs⟩))
      ∧ (¬('0' ≤ c ∧ c ≤ '9') →
        Null.lex ⟨off, '0' :: c :: cs⟩
          = (.matched ⟨Span.single_char off⟩, ⟨off + 1, c :: cs⟩))
      ∧ Null.lex ⟨off, ['0']⟩
        = (.matched ⟨Span.single_char off⟩, ⟨off + 1, []⟩) := by
  refine ⟨fun h => ?_, fun h => ?_, ?_⟩
  · simp [Null.lex, lexFw, Null.peek, SourceIter.peek, SourceIter.peek_n, h]
  · simp [Null.lex, lexFw, Null.peek, Null.lexT, SourceIter.peek,
      SourceIter.peek_n, SourceIter.next, h]
  · simp [Null.lex, lexFw, Null.peek, Null.lexT, SourceIter.peek,
      SourceIter.peek_n, SourceIter.next]

/-- Witness for claim C8 at the inputs `"01"`, `"0x"` and `"0"`. -/
theorem c8_null_negative_lookahead_witness :
    Null.lex ⟨0, ['0', '1']⟩ = (.noMatch, ⟨0, ['0', '1']⟩)
      ∧ Null.lex ⟨0, ['0', 'x']⟩
        = (.matched ⟨Span.single_char 0⟩, ⟨1, ['x']⟩)
      ∧ Null.lex ⟨0, ['0']⟩ = (.matched ⟨Span.single_char 0⟩, ⟨1, []⟩) := by
  exact ⟨(c8_null_negative_lookahead 0 '1' []).1 (by decide),
    (c8_null_negative_lookahead 0 'x' []).2.1 (by decide),
    (c8_null_negative_lookahead 0 'x' []).2.2⟩

/-- Claim C9: span combination is associative for spans in source
order — combining `[combine [a, b], c]` equals combining `[a, b, c]`
equals the span from `a`'s start to `c`'s end — combining a singleton
sequence yields the span unchanged, and combining `[a, b]` yields the
span from `a.start` to `b.end` regardless of any gap. -/
theorem c9_span_combine_associative (a b c : Span)
    (hab : a.endL ≤ b.startL) (hbc : b.endL ≤ c.startL) :
    SpanIter.combine (SpanIter.combine a [b]) [c] = SpanIter.combine a [b, c]
      ∧ SpanIter.combine a [b, c] = ⟨a.startL, c.endL⟩
      ∧ SpanIter.combine a [] = a
      ∧ SpanIter.combine a [b] = ⟨a.startL, b.endL⟩ := by
  obtain ⟨a1, a2⟩ := a
  exact ⟨rfl, rfl, rfl, rfl⟩

/-- Witness for claim C9 at the spans `0..=1`, `2..=3`, `4..=5`. -/
theorem c9_span_combine_associative_witness :
    SpanIter.combine (SpanIter.combine ⟨0, 1⟩ [⟨2, 3⟩]) [⟨4, 5⟩]
        = SpanIter.combine ⟨0, 1⟩ [⟨2, 3⟩, ⟨4, 5⟩]
      ∧ SpanIter.combine ⟨0, 1⟩ [⟨2, 3⟩, ⟨4, 5⟩] = ⟨0, 5⟩
      ∧ SpanIter.combine ⟨0, 1⟩ [] = ⟨0, 1⟩
      ∧ SpanIter.combine ⟨0, 1⟩ [⟨2, 3⟩] = ⟨0, 3⟩ := by
  have h := c9_span_combine_associative ⟨0, 1⟩ ⟨2, 3⟩ ⟨4, 5⟩
    (by decide) (by decide)
  exact ⟨h.1, h.2.1, h.2.2.1, h.2.2.2⟩

/-- Claim C5: for every token type implementing the lexing capability
(the trivia lexers of tokens.rs and the escape-sequence lexers of
escapes.rs) and every cursor, if `peek` is false then `lex` returns
`NoMatch` and leaves the cursor exactly where it was. -/
theorem c5_peek_false_lex_no_match (it : SourceIter) :
    (WhiteSpace.peek it = false → WhiteSpace.lex it = (.noMatch, it))
      ∧ (LineTerminator.peek it = false →
          LineTerminator.lex it = (.noMatch, it))
      ∧ (LineTerminatorSeq.peek it = false →
          LineTerminatorSeq.lex it = (.noMatch, it))
      ∧ (SingleLineComment.peek it = false →
          SingleLineComment.lex it = (.noMatch, it))
      ∧ (MultiLineComment.peek it = false →
          MultiLineComment.lex it = (.noMatch, it))
      ∧ (SingleEscapeChar.peek it = false →
          SingleEscapeChar.lex it = (.noMatch, it))
      ∧ (NonEscapeChar.peek it = false →
          NonEscapeChar.lex it = (.noMatch, it))
      ∧ (CharacterEscapeSequence.peek it = false →
          CharacterEscapeSequence.lex it = (.noMatch, it))
      ∧ (Null.peek it = false → Null.lex it = (.noMatch, it))
      ∧ (HexEscapeSequence.peek it = false →
          HexEscapeSequence.lex it = (.noMatch, it))
      ∧ (UnicodeEscapeSequence.peek it = false →
          UnicodeEscapeSequence.lex it = (.noMatch, it))
      ∧ (EscapeSequence.peek it = false →
          EscapeSequence.lex it = (.noMatch, it)) := by
  obtain ⟨off, rest⟩ := it
  cases rest with
  | nil =>
    exact ⟨fun _ => rfl, fun _ => rfl, fun _ => rfl, fun _ => rfl,
      fun _ => rfl, fun _ => rfl, fun _ => rfl, fun _ => rfl, fun _ => rfl,
      fun _ => rfl, fun _ => rfl, fun _ => rfl⟩
  | cons c cs =>
    refine ⟨?_, ?_, ?_, ?_, ?_, ?_, ?_, ?_, ?_, ?_, ?_, ?_⟩
    · intro h
      simp [WhiteSpace.peek, SourceIter.peek] at h
      simp [WhiteSpace.lex, SourceIter.peek, h]
    · intro h
      simp [LineTerminator.peek, SourceIter.peek] at h
      simp [LineTerminator.lex, SourceIter.peek, h]
    · intro h
      simp [LineTerminatorSeq.peek, SourceIter.peek] at h
      simp [LineTerminatorSeq.lex, SourceIter.peek, h]
      intro h1 h2
      exact absurd h2 (h.1 h1)
    · intro h
      simp [SingleLineComment.lex, h]
    · intro h
      simp [MultiLineComment.lex, h]
    · intro h
      simp [SingleEscapeChar.lex, lexFw, h]
    · intro h
      simp [NonEscapeChar.lex, lexFw, h]
    · intro h
      simp [CharacterEscapeSequence.lex, lexFw, h]
    · intro h
      simp [Null.lex, lexFw, h]
    · intro h
      simp [HexEscapeSequence.lex, lexFw, h]
    · intro h
      simp [UnicodeEscapeSequence.lex, lexFw, h]
    · intro h
      simp [EscapeSequence.lex, lexFw, h]

/-- Witness for claim C5 at the empty cursor, where every peek is
false. -/
theorem c5_peek_false_lex_no_match_witness :
    WhiteSpace.lex ⟨0, []⟩ = (.noMatch, ⟨0, []⟩)
      ∧ LineTerminator.lex ⟨0, []⟩ = (.noMatch, ⟨0, []⟩)
      ∧ LineTerminatorSeq.lex ⟨0, []⟩ = (.noMatch, ⟨0, []⟩)
      ∧ SingleLineComment.lex ⟨0, []⟩ = (.noMatch, ⟨0, []⟩)
      ∧ MultiLineComment.lex ⟨0, []⟩ = (.noMatch, ⟨0, []⟩)
      ∧ SingleEscapeChar.lex ⟨0, []⟩ = (.noMatch, ⟨0, []⟩)
      ∧ NonEscapeChar.lex ⟨0, []⟩ = (.noMatch, ⟨0, []⟩)
      ∧ CharacterEscapeSequence.lex ⟨0, []⟩ = (.noMatch, ⟨0, []⟩)
      ∧ Null.lex ⟨0, []⟩ = (.noMatch, ⟨0, []⟩)
      ∧ HexEscapeSequence.lex ⟨0, []⟩ = (.noMatch, ⟨0, []⟩)
      ∧ UnicodeEscapeSequence.lex ⟨0, []⟩ = (.noMatch, ⟨0, []⟩)
      ∧ EscapeSequence.lex ⟨0, []⟩ = (.noMatch, ⟨0, []⟩) := by
  have h := c5_peek_false_lex_no_match ⟨0, []⟩
  exact ⟨h.1 rfl, h.2.1 rfl, h.2.2.1 rfl, h.2.2.2.1 rfl, h.2.2.2.2.1 rfl,
    h.2.2.2.2.2.1 rfl, h.2.2.2.2.2.2.1 rfl, h.2.2.2.2.2.2.2.1 rfl,
    h.2.2.2.2.2.2.2.2.1 rfl, h.2.2.2.2.2.2.2.2.2.1 rfl,
    h.2.2.2.2.2.2.2.2.2.2.1 rfl, h.2.2.2.2.2.2.2.2.2.2.2 rfl⟩

/-- Claim C6: in the ordered alternation of `Token::lex` and of
`EscapeSequence::lex` (each abstracted over its four sub-lexers), a
`Malformed` result from any attempted alternative is returned
immediately as `Malformed` — later alternatives are not attempted, shown
by the result's independence from arbitrary replacements `g` of the
later alternatives — and only a `NoMatch` from an alternative lets the
next alternative run. -/
theorem c6_alternation_malformed_short_circuit {α β γ δ : Type}
    (f1 : Lexer α) (f2 g2 : Lexer β) (f3 g3 : Lexer γ) (f4 g4 : Lexer δ)
    (it it1 it2 it3 jt : SourceIter) (e : LexError) :
    (f1 it = (.malformed e, jt) →
        Token.lexWith f1 f2 f3 f4 it = (.malformed e, jt)
          ∧ Token.lexWith f1 g2 g3 g4 it = (.malformed e, jt))
      ∧ (f1 it = (.noMatch, it1) → f2 it1 = (.malformed e, jt) →
        Token.lexWith f1 f2 f3 f4 it = (.malformed e, jt)
          ∧ Token.lexWith f1 f2 g3 g4 it = (.malformed e, jt))
      ∧ (f1 it = (.noMatch, it1) → f2 it1 = (.noMatch, it2) →
          f3 it2 = (.malformed e, jt) →
        Token.lexWith f1 f2 f3 f4 it = (.malformed e, jt)
          ∧ Token.lexWith f1 f2 f3 g4 it = (.malformed e, jt))
      ∧ (f1 it = (.noMatch, it1) → f2 it1 = (.noMatch, it2) →
          f3 it2 = (.noMatch, it3) → f4 it3 = (.malformed e, jt) →
        Token.lexWith f1 f2 f3 f4 it = (.malformed e, jt))
      ∧ (f1 it = (.malformed e, jt) →
        EscapeSequence.lexWith f1 f2 f3 f4 it = (.malformed e, jt)
          ∧ EscapeSequence.lexWith f1 g2 g3 g4 it = (.malformed e, jt))
      ∧ (f1 it = (.noMatch, it1) → f2 it1 = (.malformed e, jt) →
        EscapeSequence.lexWith f1 f2 f3 f4 it = (.malformed e, jt)
          ∧ EscapeSequence.lexWith f1 f2 g3 g4 it = (.malformed e, jt))
      ∧ (f1 it = (.noMatch, it1) → f2 it1 = (.noMatch, it2) →
          f3 it2 = (.malformed e, jt) →
        EscapeSequence.lexWith f1 f2 f3 f4 it = (.malformed e, jt)
          ∧ EscapeSequence.lexWith f1 f2 f3 g4 it = (.malformed e, jt))
      ∧ (f1 it = (.noMatch, it1) → f2 it1 = (.noMatch, it2) →
          f3 it2 = (.noMatch, it3) → f4 it3 = (.malformed e, jt) →
        EscapeSequence.lexWith f1 f2 f3 f4 it = (.malformed e, jt)) := by
  refine ⟨?_, ?_, ?_, ?_, ?_, ?_, ?_, ?_⟩
  · intro h1
    exact ⟨by simp [Token.lexWith, h1], by simp [Token.lexWith, h1]⟩
  · intro h1 h2
    exact ⟨by simp [Token.lexWith, h1, h2], by simp [Token.lexWith, h1, h2]⟩
  · intro h1 h2 h3
    exact ⟨by simp [Token.lexWith, h1, h2, h3],
      by simp [Token.lexWith, h1, h2, h3]⟩
  · intro h1 h2 h3 h4
    simp [Token.lexWith, h1, h2, h3, h4]
  · intro h1
    exact ⟨by simp [EscapeSequence.lexWith, lexOr, mapLex, unwrapAsResult, h1],
      by simp [EscapeSequence.lexWith, lexOr, mapLex, unwrapAsResult, h1]⟩
  · intro h1 h2
    exact
      ⟨by simp [EscapeSequence.lexWith, lexOr, mapLex, unwrapAsResult, h1, h2],
       by simp [EscapeSequence.lexWith, lexOr, mapLex, unwrapAsResult, h1, h2]⟩
  · intro h1 h2 h3
    exact ⟨by
      simp [EscapeSequence.lexWith, lexOr, mapLex, unwrapAsResult, h1, h2, h3],
      by
      simp [EscapeSequence.lexWith, lexOr, mapLex, unwrapAsResult, h1, h2, h3]⟩
  · intro h1 h2 h3 h4
    simp [EscapeSequence.lexWith, lexOr, mapLex, unwrapAsResult, h1, h2, h3, h4]

/-- Witness for claim C6: a first alternative answering `NoMatch`
followed by a second answering `Malformed` short-circuits both chains to
that same `Malformed`. -/
theorem c6_alternation_malformed_short_circuit_witness :
    Token.lexWith (fun it => ((.noMatch : LexO Unit), it))
        (fun it => ((.malformed ⟨3⟩ : LexO Unit), it))
        (fun it => ((.matched () : LexO Unit), it))
        (fun it => ((.matched () : LexO Unit), it)) ⟨0, []⟩
      = (.malformed ⟨3⟩, ⟨0, []⟩)
    ∧ EscapeSequence.lexWith (fun it => ((.noMatch : LexO Unit), it))
        (fun it => ((.malformed ⟨3⟩ : LexO Unit), it))
        (fun it => ((.matched () : LexO Unit), it))
        (fun it => ((.matched () : LexO Unit), it)) ⟨0, []⟩
      = (.malformed ⟨3⟩, ⟨0, []⟩) := by
  have h := c6_alternation_malformed_short_circuit
    (fun it => ((.noMatch : LexO Unit), it))
    (fun it => ((.malformed ⟨3⟩ : LexO Unit), it))
    (fun it => ((.malformed ⟨3⟩ : LexO Unit), it))
    (fun it => ((.matched () : LexO Unit), it))
    (fun it => ((.matched () : LexO Unit), it))
    (fun it => ((.matched () : LexO Unit), it))
    (fun it => ((.matched () : LexO Unit), it))
    ⟨0, []⟩ ⟨0, []⟩ ⟨0, []⟩ ⟨0, []⟩ ⟨0, []⟩ ⟨3⟩
  exact ⟨(h.2.1 rfl rfl).1, (h.2.2.2.2.2.1 rfl rfl).1⟩

end Jason
